import Mathlib

/-!
Shallow embedding of `gateway/kernel.go` from busthorne/cablectl, together
with proofs of the specified properties of the kernel session protocol
client: the data-bundle resolution functions, the uuid library calls the
code makes, the reader loop, submission, per-call forwarding, teardown,
the liveness watchdog and the lifecycle start.

External library calls (JSON unmarshalling, the websocket transport, the
control-plane HTTP client) are modelled as oracles: each embedded
operation takes the outcome of the call it makes as an explicit argument,
and the embedding records the observable effects (envelopes written,
records published, tasks spawned, interrupt calls issued).
-/

namespace Gateway

/-- Embeds `type Error struct` of kernel.go: a Jupyter error payload, or a
wrapped Go error (the unexported `err` field, modelled by its message). -/
structure Error where
  Ename : String := ""
  Evalue : String := ""
  Traceback : List String := []
  err : Option String := none
deriving DecidableEq, Repr

/-- Embeds `type Data struct` of kernel.go: the multi-mime data bundle.
`String64` fields (PNG, JPG, SVG) are base64-encoded strings. -/
structure Data where
  Plaintext : String := ""
  Markdown : String := ""
  Latex : String := ""
  JS : String := ""
  JSON : String := ""
  HTML : String := ""
  PNG : String := ""
  JPG : String := ""
  SVG : String := ""
deriving DecidableEq, Repr

/-- Embeds `type Content struct` of kernel.go: the normalized Output
Record. `Message` is the owning correlation id, a uuid modelled as the
natural number given by its 16 bytes big-endian (`0` = `uuid.Nil`); it has
json tag `"-"`, so JSON unmarshalling never sets it. `Timestamp` stands
for the `time.Time` field; metadata maps are modelled as association
lists. `Error` is nil or present, like the Go pointer. -/
structure Content where
  Message : Nat := 0
  Channel : String := ""
  Code : String := ""
  Text : String := ""
  Data : Option Data := none
  Status : String := ""
  ExecutionCount : Int := 0
  Timestamp : Nat := 0
  Metadata : List (String × String) := []
  Transient : List (String × String) := []
  Error : Option Error := none
deriving DecidableEq, Repr

/-- Whether an Output Record is terminal for its correlation id: the
condition `c.Error != nil || c.Status != ""` tested by `Kernel.Execute`'s
forwarding goroutine (kernel.go line 159). -/
def Content.terminal (c : Content) : Bool :=
  c.Error.isSome || c.Status != ""

/-- Base64 value of one character of the standard alphabet
(`encoding/base64.StdEncoding`), none for a character outside it. -/
def b64Val (c : Char) : Option Nat :=
  if 'A' ≤ c ∧ c ≤ 'Z' then some (c.toNat - 'A'.toNat)
  else if 'a' ≤ c ∧ c ≤ 'z' then some (c.toNat - 'a'.toNat + 26)
  else if '0' ≤ c ∧ c ≤ '9' then some (c.toNat - '0'.toNat + 52)
  else if c = '+' then some 62
  else if c = '/' then some 63
  else none

/-- Decodes base64 quanta of four characters into groups of three bytes,
with `=` padding allowed only at the very end, as
`encoding/base64.StdEncoding` does. -/
def b64Quanta : List Char → Except String (List Nat)
  | [] => .ok []
  | c1 :: c2 :: c3 :: c4 :: rest =>
    match b64Val c1, b64Val c2 with
    | some v1, some v2 =>
      if c3 = '=' ∧ c4 = '=' ∧ rest = [] then
        .ok [v1 * 4 + v2 / 16]
      else if c4 = '=' ∧ rest = [] then
        match b64Val c3 with
        | some v3 => .ok [v1 * 4 + v2 / 16, v2 % 16 * 16 + v3 / 4]
        | none => .error "illegal base64 data"
      else
        match b64Val c3, b64Val c4 with
        | some v3, some v4 =>
          match b64Quanta rest with
          | .ok bs => .ok ((v1 * 4 + v2 / 16) :: (v2 % 16 * 16 + v3 / 4) ::
              (v3 % 4 * 64 + v4) :: bs)
          | .error e => .error e
        | _, _ => .error "illegal base64 data"
    | _, _ => .error "illegal base64 data"
  | _ => .error "illegal base64 data"

/-- Embeds `String64.Bytes`, i.e.
`base64.StdEncoding.DecodeString(string(s))`: newlines are skipped (as
Go's decoder does), then complete four-character quanta are decoded. -/
def String64.Bytes (s : String) : Except String (List Nat) :=
  b64Quanta (s.data.filter fun c => c ≠ '\r' ∧ c ≠ '\n')

/-- Embeds `func (m *Data) Text() (string, bool)` of kernel.go: first
non-empty textual representation in the fixed switch order, else
`("", false)`. -/
def Data.Text (m : Data) : String × Bool :=
  if m.Plaintext ≠ "" then (m.Plaintext, true)
  else if m.Markdown ≠ "" then (m.Markdown, true)
  else if m.Latex ≠ "" then (m.Latex, true)
  else if m.JS ≠ "" then (m.JS, true)
  else if m.JSON ≠ "" then (m.JSON, true)
  else if m.HTML ≠ "" then (m.HTML, true)
  else ("", false)

/-- Embeds `func (m *Data) Multipart() (b []byte, mimeType string, err
error)` of kernel.go. The Go slice `b` is `Option (List Nat)` (`none` =
nil slice; on a decode error the partial buffer is irrelevant because the
error return dominates, so it is modelled as `none`), the final fall
through returns `io.EOF`, modelled by the string "EOF". -/
def Data.Multipart (m : Data) : Option (List Nat) × String × Option String :=
  let (b, mimeType, err) :=
    if m.PNG ≠ "" then
      match String64.Bytes m.PNG with
      | .ok bs => (some bs, "image/png", none)
      | .error e => ((none : Option (List Nat)), "image/png", some e)
    else if m.JPG ≠ "" then
      match String64.Bytes m.JPG with
      | .ok bs => (some bs, "image/jpeg", none)
      | .error e => (none, "image/jpeg", some e)
    else if m.SVG ≠ "" then
      match String64.Bytes m.SVG with
      | .ok bs => (some bs, "image/svg+xml", none)
      | .error e => (none, "image/svg+xml", some e)
    else (none, "", none)
  if err.isSome || b.isSome then (b, mimeType, err)
  else (none, "", some "EOF")

/-- Hex value of one character, as `xtob` of github.com/google/uuid does
per character. -/
def hexVal (c : Char) : Option Nat :=
  if '0' ≤ c ∧ c ≤ '9' then some (c.toNat - '0'.toNat)
  else if 'a' ≤ c ∧ c ≤ 'f' then some (c.toNat - 'a'.toNat + 10)
  else if 'A' ≤ c ∧ c ≤ 'F' then some (c.toNat - 'A'.toNat + 10)
  else none

/-- Embeds `xtob` of github.com/google/uuid: two hex characters to one
byte. -/
def xtob (c1 c2 : Char) : Option Nat :=
  match hexVal c1, hexVal c2 with
  | some h, some l => some (h * 16 + l)
  | _, _ => none

/-- A 16-byte uuid as a natural number, big-endian (`uuid.Nil` = 0). -/
def bytesToNat (bs : List Nat) : Nat :=
  bs.foldl (fun a b => a * 256 + b) 0

/-- Decodes consecutive pairs of hex characters into bytes; fails on an
odd count or a non-hex character. -/
def parsePairs : List Char → Option (List Nat)
  | [] => some []
  | c1 :: c2 :: rest =>
    match xtob c1 c2, parsePairs rest with
    | some b, some bs => some (b :: bs)
    | _, _ => none
  | _ => none

/-- The canonical 36-character uuid form
`xxxxxxxx-xxxx-xxxx-xxxx-xxxxxxxxxxxx`: dashes at offsets 8, 13, 18, 23
and hex byte pairs elsewhere, as github.com/google/uuid `Parse` checks. -/
def parseCanonical (cs : List Char) : Option (List Nat) :=
  if cs.length = 36 then
    if cs[8]? = some '-' ∧ cs[13]? = some '-' ∧ cs[18]? = some '-' ∧
        cs[23]? = some '-' then
      parsePairs (cs.take 8 ++ (cs.drop 9).take 4 ++
        (cs.drop 14).take 4 ++ (cs.drop 19).take 4 ++ cs.drop 24)
    else none
  else none

/-- Embeds `uuid.Parse` of github.com/google/uuid: canonical form, the
`urn:uuid:` prefixed form, the braced form (Go slices off the first and
last character without checking they are braces), and the plain 32-hex
form; any other length is invalid. `none` models the returned error. -/
def uuidParse (s : String) : Option Nat :=
  let cs := s.data
  let bs :=
    if cs.length = 36 then parseCanonical cs
    else if cs.length = 45 then
      if cs.take 9 = "urn:uuid:".data ∨ (cs.take 9).map Char.toLower = "urn:uuid:".data
      then parseCanonical (cs.drop 9) else none
    else if cs.length = 38 then parseCanonical ((cs.drop 1).take 36)
    else if cs.length = 32 then parsePairs cs
    else none
  bs.map bytesToNat

/-- Embeds `uuid.New` = `uuid.Must(uuid.NewRandom())` of
github.com/google/uuid: from 16 random bytes (here `b 0 .. b 15`, taken
mod 256), overwrite byte 6 with `(b & 0x0f) | 0x40` (version 4) and byte
8 with `(b & 0x3f) | 0x80` (RFC 4122 variant). -/
def uuidNew (b : Nat → Nat) : Nat :=
  bytesToNat ((List.range 16).map fun i =>
    if i = 6 then b 6 % 256 % 16 + 64
    else if i = 8 then b 8 % 256 % 64 + 128
    else b i % 256)

/-- Lowercase hex of one nibble. -/
def hexChar (n : Nat) : Char :=
  if n < 10 then Char.ofNat ('0'.toNat + n) else Char.ofNat ('a'.toNat + n - 10)

/-- Two lowercase hex characters of one byte. -/
def byteHex (b : Nat) : List Char :=
  [hexChar (b / 16 % 16), hexChar (b % 16)]

/-- The 16 big-endian bytes of a uuid modelled as a natural number. -/
def natToBytes (u : Nat) : List Nat :=
  (List.range 16).map fun i => u / 256 ^ (15 - i) % 256

/-- Embeds `UUID.String` of github.com/google/uuid: canonical lowercase
`xxxxxxxx-xxxx-xxxx-xxxx-xxxxxxxxxxxx` form. -/
def uuidString (u : Nat) : String :=
  let b := natToBytes u
  let hex := fun (l : List Nat) => (l.map byteHex).flatten
  String.mk (hex (b.take 4) ++ '-' :: hex ((b.drop 4).take 2) ++
    '-' :: hex ((b.drop 6).take 2) ++ '-' :: hex ((b.drop 8).take 2) ++
    '-' :: hex (b.drop 10))

/-- Embeds `type Header struct` of message.go (the `time.Time` date is a
natural number). The Go field `Type` (json tag `msg_type`) is named
`MsgType` here because `Type` is reserved in Lean. -/
structure Header where
  ID : String := ""
  MsgType : String := ""
  Username : String := ""
  Session : String := ""
  Version : String := ""
  Date : Nat := 0
deriving DecidableEq, Repr

/-- Embeds `type Message struct` of message.go for the outbound
direction: the envelope `Kernel.submit` writes. The Go field `Type`
(json tag `msg_type`) is named `MsgType` here because `Type` is reserved
in Lean. `Content` holds the marshalled payload bytes
(`json.RawMessage`); `Buffers` of type `[]any` is modelled as a list of
strings (always empty here). -/
structure Message where
  Header : Option Gateway.Header := none
  ParentHeader : Option Gateway.Header := none
  Channel : String := ""
  ID : String := ""
  MsgType : String := ""
  Content : List Nat := []
  Metadata : List (String × String) := []
  Buffers : List String := []
deriving DecidableEq, Repr

/-- Inbound envelope as seen by `Kernel.read`, with the outcomes of the
external `encoding/json` unmarshalling calls the loop may make on its
raw content attached as oracles: `statusDecode` is the execution-state
string of `m.Unmarshal(&status)` (consulted only for a `status`
envelope), `contentDecode` is the `Content` of `m.Unmarshal(&c)`
(consulted only for `stream`/`display_data`/`execute_reply`). Since
`Content.Message` has json tag `"-"`, unmarshalling starts from the zero
value and never writes it; `readStep` therefore normalizes the decoded
record's `Message` to 0 before the parent-header assignment. -/
structure MsgIn where
  MsgType : String := ""
  ParentHeader : Option Header := none
  statusDecode : Except String String := .ok ""
  contentDecode : Except String Content := .ok {}
deriving Repr

/-- How one iteration of the Reader Loop ends: it returned with an error
(the loop's own surfaced error), or a panic escaped it
(`uuid.MustParse`). -/
inductive ReadExit where
  | ctxDone (e : String)
  | readFailed (e : String)
  | unmarshalFailed (e : String)
  | panicked (e : String)
deriving DecidableEq, Repr

/-- One occurrence on the receive side: context cancellation, a
`conn.ReadJSON` failure, or a successfully framed envelope. -/
inductive ReadEvent where
  | ctxDone
  | readErr (e : String)
  | msg (m : MsgIn)
deriving Repr

/-- Outcome of one iteration of `Kernel.read`: continue with a (possibly
updated) `k.Status` and an optional Output Record published on `k.out`,
or leave the loop. -/
inductive StepOut where
  | next (status : String) (published : Option Content)
  | exit (e : ReadExit)
deriving DecidableEq, Repr

/-- Embeds one iteration of `func (k *Kernel) read(ctx)` (kernel.go lines
181-210): dispatch on the envelope's type tag; `status` updates
`k.Status` only; `stream`/`display_data`/`execute_reply` decode a
`Content`, copy the parent header's id through `uuid.MustParse` (which
panics on a malformed id) and publish; any other tag does nothing. -/
def readStep (status : String) : ReadEvent → StepOut
  | .ctxDone => .exit (.ctxDone "context canceled")
  | .readErr e => .exit (.readFailed ("failed to read message: " ++ e))
  | .msg m =>
    if m.MsgType = "status" then
      match m.statusDecode with
      | .error e => .exit (.unmarshalFailed ("failed to unmarshal status: " ++ e))
      | .ok st => .next st none
    else if m.MsgType = "stream" ∨ m.MsgType = "display_data" ∨
        m.MsgType = "execute_reply" then
      match m.contentDecode with
      | .error e => .exit (.unmarshalFailed ("failed to unmarshal stream: " ++ e))
      | .ok c0 =>
        match m.ParentHeader with
        | some h =>
          match uuidParse h.ID with
          | some u => .next status (some { c0 with Message := u })
          | none => .exit (.panicked ("uuid: Parse(" ++ h.ID ++ "): invalid UUID"))
        | none => .next status (some { c0 with Message := 0 })
    else .next status none

/-- The Reader Loop over a finite sequence of receive-side events:
returns the final `k.Status`, the Output Records published on `k.out` in
order, and how the loop ended (`none` when the event list ran out with
the loop still live). -/
def readLoop (status : String) : List ReadEvent → String × List Content × Option ReadExit
  | [] => (status, [], none)
  | ev :: rest =>
    match readStep status ev with
    | .next st pub =>
      let (st', pubs, ex) := readLoop st rest
      (st', pub.toList ++ pubs, ex)
    | .exit e => (status, [], some e)

/-- Observable outcome of `Kernel.submit` (kernel.go lines 212-245):
how many interrupt calls were issued, the envelope written on the
transport (if any), and the returned `(uuid.UUID, error)` pair, the
error modelled by its message. -/
structure SubmitOut where
  interrupts : Nat
  written : Option Message
  ret : Nat × Option String
deriving DecidableEq, Repr

/-- The execute envelope `Kernel.submit` writes: `execute_request` type
tag, the fresh correlation id, the session's user/session labels,
protocol version 5.0, shell channel, empty parent header, marshalled
payload. -/
def mkExecuteMessage (id : Nat) (user session : String) (content : List Nat) : Message :=
  { Header := some
      { MsgType := "execute_request", ID := uuidString id,
        Username := user, Session := session, Version := "5.0" },
    ParentHeader := some {},
    Channel := "shell",
    Content := content,
    Metadata := [],
    Buffers := [] }

/-- Embeds `func (k *Kernel) submit(ctx, code)`: if `k.Status` is
`busy`, one interrupt call is made first, and its failure aborts with
the "busy kernel" error; then the payload is marshalled (`marshal` is
the `json.Marshal` oracle), a fresh uuid is generated from the random
bytes `rnd`, and the envelope is written (`writeErr` is the
`conn.WriteJSON` oracle); the fresh id is returned together with the
write's error. -/
def submit (status user session : String)
    (interrupt : Except String Unit)
    (marshal : Except String (List Nat))
    (rnd : Nat → Nat)
    (writeErr : Option String) : SubmitOut :=
  let proceed : Nat → SubmitOut := fun n =>
    match marshal with
    | .error e =>
        { interrupts := n, written := none,
          ret := (0, some ("failed to marshal execute request: " ++ e)) }
    | .ok b =>
        let id := uuidNew rnd
        { interrupts := n, written := some (mkExecuteMessage id user session b),
          ret := (id, writeErr) }
  if status = "busy" then
    match interrupt with
    | .error e =>
        { interrupts := 1, written := none,
          ret := (0, some ("busy kernel: " ++ e)) }
    | .ok _ => proceed 1
  else proceed 0

/-- Embeds the forwarding goroutine of `Kernel.Execute` (kernel.go lines
155-165) over the finite sequence of records it receives from `k.out`:
returns the records republished on the per-call channel `ch`, in order,
and whether `ch` was closed (which happens exactly when a matching
record with a non-empty error or status is forwarded). -/
def forward (id : Nat) : List Content → List Content × Bool
  | [] => ([], false)
  | c :: rest =>
    if c.Message = id then
      if c.terminal then ([c], true)
      else (c :: (forward id rest).1, (forward id rest).2)
    else forward id rest

/-- Restates §4.5 of the spec in its own words, for comparison with the
code's forwarding goroutine: the per-call stream delivers, from the
matching records in order, every record up to and including the first
terminal one, and the channel is closed exactly when that terminal
record was found. -/
def deliverUntilTerminal : List Content → List Content × Bool
  | [] => ([], false)
  | c :: rest =>
    if c.terminal then ([c], true)
    else (c :: (deliverUntilTerminal rest).1, (deliverUntilTerminal rest).2)

/-- Embeds `func (k *Kernel) Execute(ctx, code)`: submit first, return
the submission error with no stream on failure; otherwise the per-call
stream is the forwarding of the shared channel's records (`outs`)
filtered by the assigned correlation id. -/
def Execute (status user session : String)
    (interrupt : Except String Unit)
    (marshal : Except String (List Nat))
    (rnd : Nat → Nat)
    (writeErr : Option String)
    (outs : List Content) : Except String (List Content × Bool) :=
  let s := submit status user session interrupt marshal rnd writeErr
  match s.ret with
  | (_, some e) => .error e
  | (id, none) => .ok (forward id outs)

/-- The mutable state of `type Kernel struct` that the session-level
operations touch: the identity, the execution-state string, the
transport handle (`none` = nil `conn`), and the teardown flags — whether
each of the two channels has been closed and whether the governing
context has been cancelled. -/
structure KernelState where
  id : Nat := 0
  Status : String := ""
  conn : Option Unit := some ()
  inClosed : Bool := false
  outClosed : Bool := false
  cancelled : Bool := false
deriving DecidableEq, Repr

/-- How a `Close` call ends: a returned error value (possibly nil), or a
runtime panic (closing an already-closed channel panics in Go). -/
inductive CloseResult where
  | ret (e : Option String)
  | panicked (m : String)
deriving DecidableEq, Repr

/-- Closing a Go channel: a panic if it is already closed. -/
def closeChan (alreadyClosed : Bool) : Except String Unit :=
  if alreadyClosed then .error "close of closed channel" else .ok ()

/-- Embeds `func (k *Kernel) Close()` (kernel.go lines 169-179): nil
`conn` is a no-op returning nil; otherwise close the transport
(`connCloseErr` is the `conn.Close` oracle), clear the handle, close
`k.in` and `k.out`, cancel the context, and return the transport
close's error. -/
def closeOp (s : KernelState) (connCloseErr : Option String) : KernelState × CloseResult :=
  match s.conn with
  | none => (s, .ret none)
  | some _ =>
    let s1 := { s with conn := none }
    match closeChan s1.inClosed with
    | .error m => (s1, .panicked m)
    | .ok _ =>
      let s2 := { s1 with inClosed := true }
      match closeChan s2.outClosed with
      | .error m => (s2, .panicked m)
      | .ok _ => ({ s2 with outClosed := true, cancelled := true }, .ret connCloseErr)

/-- The operations available on an attached session, each carrying the
oracles for the external calls it makes. -/
inductive SessionOp where
  | readEnvelope (ev : ReadEvent)
  | doSubmit (interrupt : Except String Unit) (marshal : Except String (List Nat))
      (rnd : Nat → Nat) (writeErr : Option String)
  | doInterrupt (res : Except String Unit)
  | doClose (connCloseErr : Option String)
  | doShutdown (del : Except String Unit) (connCloseErr : Option String)
  | doListen

/-- State effect of each session operation: only a `status` envelope
handled by the Reader Loop writes `Status`; `Shutdown` clears the
identity then calls `Close`; `submit`, `Interrupt` and `Listen` leave
the struct untouched. -/
def applyOp (s : KernelState) : SessionOp → KernelState
  | .readEnvelope ev =>
    match readStep s.Status ev with
    | .next st _ => { s with Status := st }
    | .exit _ => s
  | .doSubmit _ _ _ _ => s
  | .doInterrupt _ => s
  | .doClose e => (closeOp s e).1
  | .doShutdown del e =>
    match del with
    | .error _ => s
    | .ok _ => (closeOp { s with id := 0 } e).1
  | .doListen => s

/-- One occurrence seen by the keepalive goroutine: context
cancellation, or a ticker tick (carrying whether `k.conn` was nil at
that tick and the outcome of the ping write). -/
inductive WatchEvent where
  | ctxDone
  | tick (connNil : Bool) (pingErr : Option String)
deriving DecidableEq, Repr

/-- Why the keepalive goroutine returned. -/
inductive WatchExit where
  | cancelled
  | connGone
  | pingFailed (e : String)
deriving DecidableEq, Repr

/-- Observable trace of the keepalive goroutine: the synthetic fault
records it published on `k.out`, whether it called `Close`, why it
exited (`none` = still running), and whether the deferred
`ticker.Stop()` has run. -/
structure WatchTrace where
  faults : List Content
  closed : Bool
  exit : Option WatchExit
  tickerStopped : Bool
deriving DecidableEq, Repr

/-- The synthetic session-wide fault record the keepalive goroutine
publishes: `&Content{Error: &Error{err: err}}` — every other field is
the zero value, in particular the owning correlation id is `uuid.Nil`. -/
def faultContent (e : String) : Content :=
  { Error := some { err := some e } }

/-- Embeds the keepalive goroutine of `NewKernel` (kernel.go lines
96-118) over a finite sequence of events: on cancellation or a nil
`conn` it returns silently; on a ping-write failure it publishes one
fault record, calls `Close` and returns; the deferred `ticker.Stop()`
runs on every return path. -/
def watchdogRun : List WatchEvent → WatchTrace
  | [] => { faults := [], closed := false, exit := none, tickerStopped := false }
  | .ctxDone :: _ =>
      { faults := [], closed := false, exit := some .cancelled,
        tickerStopped := true }
  | .tick connNil pingErr :: rest =>
    if connNil then
      { faults := [], closed := false, exit := some .connGone, tickerStopped := true }
    else
      match pingErr with
      | some e =>
          { faults := [faultContent e], closed := true,
            exit := some (.pingFailed e), tickerStopped := true }
      | none => watchdogRun rest

/-- Oracles for the external calls `NewKernel` may make: constructing
the control-plane client (`api.NewClient`, no network), the provisioning
POST, the JSON decode of its response (kernel id and optional initial
execution state), and the websocket dial. -/
structure NKEnv where
  newClient : Except String Unit := .ok ()
  provision : Except String Unit := .ok ()
  decodeKernel : Except String (Nat × Option String) := .ok (1, none)
  dial : Except String Unit := .ok ()

/-- Observable trace of a `NewKernel` call: the returned error (if
any), how many network calls were attempted (provisioning POST and
websocket dial), which background tasks were spawned, and the resulting
identity and execution state. -/
structure NKTrace where
  err : Option String
  networkCalls : Nat
  readerStarted : Bool
  keepaliveStarted : Bool
  id : Nat
  Status : String
deriving DecidableEq, Repr

/-- The provisioning-and-dial phase of `NewKernel` (kernel.go lines
53-118), reached once the client is available: provision only when the
identity is absent (one network call, updating id and — when the
response carries one — the execution state), then dial (one network
call), then spawn the Reader Loop and, when a keepalive interval is
configured, the Watchdog; every failure returns before any task is
spawned. -/
def provisionAndDial (id0 : Nat) (status0 : String) (keepAlive : Nat)
    (env : NKEnv) : NKTrace :=
  let afterProvision : Except (String × Nat) (Nat × String × Nat) :=
    if id0 = 0 then
      match env.provision with
      | .error e => .error ("failed to create kernel: " ++ e, 1)
      | .ok _ =>
        match env.decodeKernel with
        | .error e => .error ("failed to unmarshal kernel: " ++ e, 1)
        | .ok (kid, st) => .ok (kid, st.getD status0, 1)
    else .ok (id0, status0, 0)
  match afterProvision with
  | .error (e, n) =>
    { err := some e, networkCalls := n, readerStarted := false,
      keepaliveStarted := false, id := id0, Status := status0 }
  | .ok (kid, st, n) =>
    match env.dial with
    | .error e =>
      { err := some ("failed to dial kernel: " ++ e), networkCalls := n + 1,
        readerStarted := false, keepaliveStarted := false, id := kid, Status := st }
    | .ok _ =>
      { err := none, networkCalls := n + 1, readerStarted := true,
        keepaliveStarted := keepAlive ≠ 0, id := kid, Status := st }

/-- Embeds `func NewKernel(ctx, k)` (kernel.go lines 38-120):
precondition checks (non-empty name; a url when no client is supplied),
client construction, then the provisioning-and-dial phase. -/
def newKernel (name : String) (hasClient : Bool) (urlStr : String)
    (id0 : Nat) (status0 : String) (keepAlive : Nat) (env : NKEnv) : NKTrace :=
  if name = "" then
    { err := some "kernel name is required", networkCalls := 0,
      readerStarted := false, keepaliveStarted := false, id := id0, Status := status0 }
  else
    let clientErr : Option String :=
      if hasClient then none
      else if urlStr = "" then some "kernel gateway url is required"
      else
        match env.newClient with
        | .error e => some ("failed to create gateway client: " ++ e)
        | .ok _ => none
    match clientErr with
    | some e =>
      { err := some e, networkCalls := 0, readerStarted := false,
        keepaliveStarted := false, id := id0, Status := status0 }
    | none => provisionAndDial id0 status0 keepAlive env

/-!
Theorems settling the specified claims.
-/

/-- C6: for every Data bundle, the text-resolution function returns the
first non-empty field in the fixed priority order plain text, markdown,
LaTeX, script, structured-data, markup, together with `true`; if all six
are empty it returns `("", false)`. In particular a markup-only bundle
resolves to the markup value and a bundle with both plain text and
markup resolves to the plain text. -/
theorem C6_data_text_priority :
    (∀ d : Data,
      d.Text =
        match [d.Plaintext, d.Markdown, d.Latex, d.JS, d.JSON, d.HTML].find?
            (fun s => !(s == "")) with
        | some t => (t, true)
        | none => ("", false)) ∧
    (∀ v : String, v ≠ "" → Data.Text { HTML := v } = (v, true)) ∧
    (∀ p v : String, p ≠ "" → Data.Text { Plaintext := p, HTML := v } = (p, true)) := by
  refine ⟨fun d => ?_, fun v hv => ?_, fun p v hp => ?_⟩
  · by_cases h1 : d.Plaintext = "" <;> by_cases h2 : d.Markdown = "" <;>
      by_cases h3 : d.Latex = "" <;> by_cases h4 : d.JS = "" <;>
      by_cases h5 : d.JSON = "" <;> by_cases h6 : d.HTML = "" <;>
      simp [Data.Text, h1, h2, h3, h4, h5, h6,
        List.find?_cons_of_pos, List.find?_cons_of_neg]
  · simp [Data.Text, hv]
  · simp [Data.Text, hp]

/-- Witness for C6 at concrete bundles. -/
theorem C6_witness :
    Data.Text { HTML := "<p>x</p>" } = ("<p>x</p>", true) ∧
    Data.Text { Plaintext := "t", HTML := "<p>x</p>" } = ("t", true) :=
  ⟨C6_data_text_priority.2.1 "<p>x</p>" (by decide),
   C6_data_text_priority.2.2 "t" "<p>x</p>" (by decide)⟩

/-- C7: for every Data bundle, the multipart extraction selects the
first non-empty binary field in the mutually exclusive priority order
png, then jpeg, then svg, and base64-decodes exactly the selected field,
returning its decoded bytes with its mime type (or the decode error with
that mime type); when all three binary fields are empty it reports the
empty-content condition (`io.EOF`), not a bundle error. In particular a
bundle whose png field holds valid base64 yields the decoded bytes with
mime type `image/png`. -/
theorem C7_data_multipart :
    (∀ d : Data,
      match [(d.PNG, "image/png"), (d.JPG, "image/jpeg"),
          (d.SVG, "image/svg+xml")].find? (fun p => !(p.1 == "")) with
      | some (s, mime) =>
          match String64.Bytes s with
          | .ok bs => d.Multipart = (some bs, mime, none)
          | .error e => d.Multipart = (none, mime, some e)
      | none => d.Multipart = (none, "", some "EOF")) ∧
    (∀ (d : Data) (bs : List Nat), String64.Bytes d.PNG = .ok bs → d.PNG ≠ "" →
      d.Multipart = (some bs, "image/png", none)) ∧
    (∀ d : Data, d.PNG = "" → d.JPG = "" → d.SVG = "" →
      d.Multipart = (none, "", some "EOF")) := by
  refine ⟨fun d => ?_, fun d bs hdec hne => ?_, fun d h1 h2 h3 => ?_⟩
  · by_cases h1 : d.PNG = ""
    · by_cases h2 : d.JPG = ""
      · by_cases h3 : d.SVG = ""
        · simp [List.find?, h1, h2, h3, Data.Multipart]
        · cases hb : String64.Bytes d.SVG <;>
            simp [List.find?_cons_of_pos, List.find?_cons_of_neg, h1, h2, h3,
              Data.Multipart, hb]
      · cases hb : String64.Bytes d.JPG <;>
          simp [List.find?_cons_of_pos, List.find?_cons_of_neg, h1, h2,
            Data.Multipart, hb]
    · cases hb : String64.Bytes d.PNG <;>
        simp [List.find?_cons_of_pos, List.find?_cons_of_neg, h1,
          Data.Multipart, hb]
  · simp [Data.Multipart, hne, hdec]
  · simp [Data.Multipart, h1, h2, h3]

/-- Witness for C7: a concrete png-only bundle, a bundle exercising the
jpeg-before-svg priority, an svg-only bundle, and the empty bundle. -/
theorem C7_witness :
    Data.Multipart { PNG := "AQID" } = (some [1, 2, 3], "image/png", none) ∧
    Data.Multipart { JPG := "AQID", SVG := "Lg==" } =
      (some [1, 2, 3], "image/jpeg", none) ∧
    Data.Multipart { SVG := "Lg==" } = (some [46], "image/svg+xml", none) ∧
    Data.Multipart {} = (none, "", some "EOF") :=
  ⟨C7_data_multipart.2.1 { PNG := "AQID" } [1, 2, 3] rfl (by decide),
   C7_data_multipart.1 { JPG := "AQID", SVG := "Lg==" },
   C7_data_multipart.1 { SVG := "Lg==" },
   C7_data_multipart.2.2 {} rfl rfl rfl⟩

/-- C2: a submission attempted while the state is `busy` issues exactly
one interrupt call before writing the execute envelope; if the interrupt
fails, no envelope is written and the "busy kernel" error is returned;
if the state is not `busy`, no interrupt call is issued. -/
theorem C2_submit_busy_interrupt :
    ∀ (user session : String) (marshal : Except String (List Nat))
      (rnd : Nat → Nat) (writeErr : Option String),
    (∀ e : String,
      submit "busy" user session (.error e) marshal rnd writeErr =
        { interrupts := 1, written := none, ret := (0, some ("busy kernel: " ++ e)) }) ∧
    ((submit "busy" user session (.ok ()) marshal rnd writeErr).interrupts = 1) ∧
    (∀ (status : String) (interrupt : Except String Unit), status ≠ "busy" →
      (submit status user session interrupt marshal rnd writeErr).interrupts = 0) := by
  intro user session marshal rnd writeErr
  refine ⟨fun e => ?_, ?_, fun status interrupt hs => ?_⟩
  · simp [submit]
  · cases marshal <;> simp [submit]
  · cases marshal <;> cases interrupt <;> simp [submit, hs]

/-- Witness for C2 at concrete inputs. -/
theorem C2_witness :
    (submit "busy" "u" "s" (.error "conn refused") (.ok []) (fun _ => 0) none =
      { interrupts := 1, written := none,
        ret := (0, some "busy kernel: conn refused") }) ∧
    (submit "idle" "u" "s" (.ok ()) (.ok []) (fun _ => 0) none).interrupts = 0 :=
  ⟨(C2_submit_busy_interrupt "u" "s" (.ok []) (fun _ => 0) none).1 "conn refused",
   (C2_submit_busy_interrupt "u" "s" (.ok []) (fun _ => 0) none).2.2 "idle" (.ok ())
     (by decide)⟩

/-- Helper: the forwarding goroutine computes exactly the spec-side
delivery over the matching records, in order. -/
theorem forward_eq_dut (id : Nat) (outs : List Content) :
    forward id outs = deliverUntilTerminal (outs.filter fun c => c.Message == id) := by
  induction outs with
  | nil => rfl
  | cons c rest ih =>
    by_cases h : c.Message = id
    · cases ht : c.terminal <;>
        simp [forward, deliverUntilTerminal, List.filter_cons, h, ht, ih]
    · simp [forward, List.filter_cons, h, ih]

/-- Helper: everything the forwarding goroutine republished matches the
call's correlation id. -/
theorem forward_mem (id : Nat) (outs : List Content) :
    ∀ c ∈ (forward id outs).1, c.Message = id := by
  induction outs with
  | nil => intro c hc; simp [forward] at hc
  | cons d rest ih =>
    intro c hc
    by_cases h : d.Message = id
    · cases ht : d.terminal
      · simp only [forward, if_pos h, ht, Bool.false_eq_true, ite_false,
          List.mem_cons] at hc
        rcases hc with rfl | hc
        · exact h
        · exact ih c hc
      · simp only [forward, if_pos h, ht, ite_true, List.mem_singleton] at hc
        subst hc; exact h
    · simp only [forward, if_neg h] at hc
      exact ih c hc

/-- Helper: the per-call channel is closed iff the last delivered record
is terminal, and everything before it (or, if never closed, everything
delivered) is non-terminal. -/
theorem forward_closed_spec (id : Nat) (outs : List Content) :
    ((forward id outs).2 = true →
      ∃ pre done, (forward id outs).1 = pre ++ [done] ∧ done.terminal = true ∧
        ∀ c ∈ pre, c.terminal = false) ∧
    ((forward id outs).2 = false → ∀ c ∈ (forward id outs).1, c.terminal = false) := by
  induction outs with
  | nil => simp [forward]
  | cons d rest ih =>
    by_cases h : d.Message = id
    · cases ht : d.terminal
      · constructor
        · intro hcl
          simp only [forward, if_pos h, ht, Bool.false_eq_true, ite_false] at hcl ⊢
          obtain ⟨pre, done, h1, h2, h3⟩ := ih.1 hcl
          refine ⟨d :: pre, done, by simp [h1], h2, ?_⟩
          intro c hc
          rcases List.mem_cons.mp hc with rfl | hc
          · exact ht
          · exact h3 c hc
        · intro hcl
          simp only [forward, if_pos h, ht, Bool.false_eq_true, ite_false] at hcl ⊢
          intro c hc
          rcases List.mem_cons.mp hc with rfl | hc
          · exact ht
          · exact ih.2 hcl c hc
      · constructor
        · intro _
          simp only [forward, if_pos h, ht, ite_true]
          exact ⟨[], d, rfl, ht, by simp⟩
        · intro hcl
          simp only [forward, if_pos h, ht, ite_true] at hcl
          exact absurd hcl (by simp)
    · simp only [forward, if_neg h]
      exact ih


/-- C1: each Execute call's per-call channel carries only Output Records
whose owning correlation id equals the id assigned to that call; its
content is exactly the matching records up to and including the first
terminal one (non-matching records are skipped); the channel is closed
precisely upon forwarding a terminal record, every record forwarded
before it being non-terminal, and it stays open (all forwarded records
non-terminal) when no matching terminal record arrives. -/
theorem C1_execute_per_call_stream :
    ∀ (id : Nat) (outs : List Content),
      forward id outs = deliverUntilTerminal (outs.filter fun c => c.Message == id) ∧
      (∀ c ∈ (forward id outs).1, c.Message = id) ∧
      ((forward id outs).2 = true →
        ∃ pre done, (forward id outs).1 = pre ++ [done] ∧ done.terminal = true ∧
          ∀ c ∈ pre, c.terminal = false) ∧
      ((forward id outs).2 = false → ∀ c ∈ (forward id outs).1, c.terminal = false) :=
  fun id outs =>
    ⟨forward_eq_dut id outs, forward_mem id outs,
     (forward_closed_spec id outs).1, (forward_closed_spec id outs).2⟩

/-- Witness for C1 on a concrete interleaved stream: records owned by
correlation id 3 are skipped, and the stream for id 5 closes at its
terminal record, dropping the id-5 record arriving after it. -/
theorem C1_witness :
    ({ Message := 5, Text := "a" } : Content).Message = 5 ∧
    (∃ pre done,
      (forward 5 [{ Message := 5, Text := "a" }, { Message := 3, Status := "ok" },
          { Message := 5, Status := "ok" }, { Message := 5, Text := "late" }]).1 =
        pre ++ [done] ∧ done.terminal = true ∧ ∀ c ∈ pre, c.terminal = false) :=
  ⟨(C1_execute_per_call_stream 5
      [{ Message := 5, Text := "a" }, { Message := 3, Status := "ok" },
       { Message := 5, Status := "ok" }, { Message := 5, Text := "late" }]).2.1
      { Message := 5, Text := "a" } (by decide),
   (C1_execute_per_call_stream 5 _).2.2.1 (by decide)⟩

/-- C4 (code bug): the claim says every Reader Loop failure — including
an envelope whose parent header carries a malformed correlation id — is
surfaced as the loop's own returned error and no panic escapes; but
`Kernel.read` copies the id with `uuid.MustParse(h.ID)`, which panics on
a malformed id, so a `stream` envelope with parent-header id "garbage"
crashes the loop instead of returning an error. Transport read errors,
by contrast, are indeed surfaced as returned errors. -/
theorem C4_malformed_parent_id_panics :
    readStep "idle"
        (.msg
          { MsgType := "stream", ParentHeader := some { ID := "garbage" },
            contentDecode := .ok {} }) =
      .exit (.panicked "uuid: Parse(garbage): invalid UUID") ∧
    readStep "idle" (.readErr "EOF") =
      .exit (.readFailed "failed to read message: EOF") := by
  constructor <;> rfl

/-- Helper: whenever one Reader Loop iteration continues with a status
value, that value is either unchanged or is the state carried by a
`status` envelope whose decode succeeded. -/
theorem readStep_next_status (status : String) (ev : ReadEvent) :
    ∀ {st : String} {pub : Option Content}, readStep status ev = .next st pub →
      st = status ∨
      ∃ (m : MsgIn) (stv : String), ev = .msg m ∧ m.MsgType = "status" ∧
        m.statusDecode = .ok stv ∧ st = stv := by
  intro st pub hstep
  cases ev with
  | ctxDone => simp [readStep] at hstep
  | readErr e => simp [readStep] at hstep
  | msg m =>
    by_cases hst : m.MsgType = "status"
    · rw [readStep, if_pos hst] at hstep
      cases hd : m.statusDecode with
      | error e => rw [hd] at hstep; simp at hstep
      | ok stv =>
        rw [hd] at hstep
        injection hstep with h1 _
        exact .inr ⟨m, stv, rfl, hst, hd, h1.symm⟩
    · left
      rw [readStep, if_neg hst] at hstep
      by_cases hsf : m.MsgType = "stream" ∨ m.MsgType = "display_data" ∨
          m.MsgType = "execute_reply"
      · rw [if_pos hsf] at hstep
        cases hd : m.contentDecode with
        | error e => simp [hd] at hstep
        | ok c0 =>
          cases hph : m.ParentHeader with
          | none =>
            simp only [hd, hph] at hstep
            injection hstep with h1 _
            exact h1.symm
          | some hh =>
            cases hu : uuidParse hh.ID with
            | none => simp [hd, hph, hu] at hstep
            | some u =>
              simp only [hd, hph, hu] at hstep
              injection hstep with h1 _
              exact h1.symm
      · rw [if_neg hsf] at hstep
        injection hstep with h1 _
        exact h1.symm

/-- Helper: `Close` never writes the execution-state field. -/
theorem closeOp_Status (s : KernelState) (e : Option String) :
    ((closeOp s e).1).Status = s.Status := by
  cases hc : s.conn
  · simp only [closeOp, hc]
  · simp only [closeOp, closeChan, hc]
    split_ifs <;> rfl

/-- C3: Reader Loop dispatch is determined solely by the type tag — a
`status` envelope (decode ok) sets the execution-state field to the
carried value and publishes nothing; a `stream`/`display_data`/
`execute_reply` envelope (decode ok, parseable parent id) publishes an
Output Record whose owning correlation id is the parent header's id and
leaves the state unchanged; any other tag changes nothing and publishes
nothing; and across all session operations, only status-envelope
handling can mutate the execution-state field. -/
theorem C3_reader_dispatch :
    (∀ (status st : String) (m : MsgIn), m.MsgType = "status" →
      m.statusDecode = .ok st → readStep status (.msg m) = .next st none) ∧
    (∀ (status : String) (m : MsgIn) (c0 : Content) (h : Header) (u : Nat),
      (m.MsgType = "stream" ∨ m.MsgType = "display_data" ∨ m.MsgType = "execute_reply") →
      m.contentDecode = .ok c0 → m.ParentHeader = some h → uuidParse h.ID = some u →
      readStep status (.msg m) = .next status (some { c0 with Message := u })) ∧
    (∀ (status : String) (m : MsgIn),
      m.MsgType ≠ "status" → m.MsgType ≠ "stream" → m.MsgType ≠ "display_data" →
      m.MsgType ≠ "execute_reply" → readStep status (.msg m) = .next status none) ∧
    (∀ (s : KernelState) (op : SessionOp),
      (applyOp s op).Status = s.Status ∨
      ∃ (m : MsgIn) (st : String), op = .readEnvelope (.msg m) ∧ m.MsgType = "status" ∧
        m.statusDecode = .ok st ∧ (applyOp s op).Status = st) := by
  refine ⟨?_, ?_, ?_, ?_⟩
  · intro status st m h1 h2
    rw [readStep, if_pos h1, h2]
  · intro status m c0 h u hsf hcd hph hu
    have hst : m.MsgType ≠ "status" := by
      rcases hsf with h | h | h <;> rw [h] <;> decide
    rw [readStep, if_neg hst, if_pos hsf]
    simp only [hcd, hph, hu]
  · intro status m h1 h2 h3 h4
    rw [readStep, if_neg h1, if_neg (by simp [h2, h3, h4])]
  · intro s op
    cases op with
    | readEnvelope ev =>
      cases hrs : readStep s.Status ev with
      | next st pub =>
        rcases readStep_next_status s.Status ev hrs with h | ⟨m, stv, rfl, hm1, hm2, hm3⟩
        · left; simp [applyOp, hrs, h]
        · right; exact ⟨m, stv, rfl, hm1, hm2, by simp [applyOp, hrs, hm3]⟩
      | exit e => left; simp [applyOp, hrs]
    | doSubmit i ma r w => left; rfl
    | doInterrupt r => left; rfl
    | doClose e => left; exact closeOp_Status s e
    | doShutdown del e =>
      left
      cases del with
      | error x => rfl
      | ok x => exact closeOp_Status { s with id := 0 } e
    | doListen => left; rfl

/-- Witness for C3 on concrete envelopes: a status envelope carrying
`busy`, a stream envelope with a well-formed parent id, and a
`comm_msg` envelope. -/
theorem C3_witness :
    readStep "idle" (.msg { MsgType := "status", statusDecode := .ok "busy" }) =
      .next "busy" none ∧
    readStep "idle"
        (.msg
          { MsgType := "stream",
            ParentHeader := some { ID := "00000000-0000-4000-8000-0000000000ff" },
            contentDecode := .ok { Text := "out" } }) =
      .next "idle" (some { Message := 64 * 256 ^ 9 + 128 * 256 ^ 7 + 255, Text := "out" }) ∧
    readStep "idle" (.msg { MsgType := "comm_msg" }) = .next "idle" none :=
  ⟨C3_reader_dispatch.1 "idle" "busy" _ rfl rfl,
   C3_reader_dispatch.2.1 "idle" _ { Text := "out" }
     { ID := "00000000-0000-4000-8000-0000000000ff" } (64 * 256 ^ 9 + 128 * 256 ^ 7 + 255)
     (.inl rfl) rfl rfl (by decide),
   C3_reader_dispatch.2.2.1 "idle" _ (by decide) (by decide) (by decide) (by decide)⟩

/-- C5: `Close` is idempotent — on a first call from an attached state
it closes and clears the transport, closes both channels and cancels the
context, returning the transport close's error; a second call in
sequence is a no-op returning nil, with no panic. -/
theorem C5_close_idempotent :
    ∀ (s : KernelState) (e e' : Option String),
      s.conn = some () → s.inClosed = false → s.outClosed = false →
      closeOp s e =
        ({ s with conn := none, inClosed := true, outClosed := true, cancelled := true },
          .ret e) ∧
      closeOp (closeOp s e).1 e' = ((closeOp s e).1, .ret none) := by
  intro s e e' hc hi ho
  have h1 : closeOp s e =
      ({ s with conn := none, inClosed := true, outClosed := true, cancelled := true },
        .ret e) := by
    simp [closeOp, closeChan, hc, hi, ho]
  exact ⟨h1, by rw [h1]; simp [closeOp]⟩

/-- Witness for C5 from the freshly attached state. -/
theorem C5_witness :
    closeOp {} (some "use of closed network connection") =
      ({ conn := none, inClosed := true, outClosed := true, cancelled := true },
        .ret (some "use of closed network connection")) ∧
    closeOp (closeOp {} (some "use of closed network connection")).1 none =
      ((closeOp {} (some "use of closed network connection")).1, .ret none) :=
  C5_close_idempotent {} (some "use of closed network connection") none rfl rfl rfl

/-- C8: on a tick where the ping write fails, the Watchdog publishes
exactly one synthetic Output Record carrying an error and the nil owning
correlation id, then performs teardown and exits; on context
cancellation it exits cleanly without publishing; across every run it
publishes at most that one fault, calls Close exactly when the ping
failed, and the deferred `ticker.Stop()` has run whenever it exited. -/
theorem C8_watchdog :
    (∀ evs : List WatchEvent,
      (watchdogRun evs).tickerStopped = (watchdogRun evs).exit.isSome ∧
      (∀ c ∈ (watchdogRun evs).faults,
        c.Error.isSome = true ∧ c.Message = 0 ∧ c.Status = "") ∧
      (match (watchdogRun evs).exit with
       | some (.pingFailed e) =>
          (watchdogRun evs).faults = [faultContent e] ∧ (watchdogRun evs).closed = true
       | _ => (watchdogRun evs).faults = [] ∧ (watchdogRun evs).closed = false)) ∧
    (∀ (e : String) (rest : List WatchEvent),
      watchdogRun (.tick false (some e) :: rest) =
        { faults := [faultContent e], closed := true, exit := some (.pingFailed e),
          tickerStopped := true }) ∧
    (∀ rest : List WatchEvent,
      watchdogRun (.ctxDone :: rest) =
        { faults := [], closed := false, exit := some .cancelled,
          tickerStopped := true }) ∧
    (∀ rest : List WatchEvent,
      watchdogRun (.tick false none :: rest) = watchdogRun rest) := by
  refine ⟨?_, fun e rest => rfl, fun rest => rfl, fun rest => rfl⟩
  intro evs
  induction evs with
  | nil => exact ⟨rfl, by simp [watchdogRun], by simp [watchdogRun]⟩
  | cons ev rest ih =>
    cases ev with
    | ctxDone => exact ⟨rfl, by simp [watchdogRun], by simp [watchdogRun]⟩
    | tick connNil pingErr =>
      cases connNil
      · cases pingErr with
        | none => simpa [watchdogRun] using ih
        | some e =>
          refine ⟨rfl, ?_, ?_⟩ <;> simp [watchdogRun, faultContent]
      · exact ⟨rfl, by simp [watchdogRun], by simp [watchdogRun]⟩

/-- Witness for C8: the fault record published on a concrete failed
ping carries an error, the nil correlation id and no status marker. -/
theorem C8_witness :
    (faultContent "write: broken pipe").Error.isSome = true ∧
    (faultContent "write: broken pipe").Message = 0 ∧
    (faultContent "write: broken pipe").Status = "" :=
  (C8_watchdog.1 [.tick false (some "write: broken pipe")]).2.1
    (faultContent "write: broken pipe") (by simp [watchdogRun])

/-- Helper: every failing outcome of the provisioning-and-dial phase
leaves both background tasks unspawned. -/
theorem provisionAndDial_err (id0 : Nat) (status0 : String) (keepAlive : Nat)
    (env : NKEnv) :
    ((provisionAndDial id0 status0 keepAlive env).err.isSome →
      (provisionAndDial id0 status0 keepAlive env).readerStarted = false ∧
      (provisionAndDial id0 status0 keepAlive env).keepaliveStarted = false) ∧
    ((provisionAndDial id0 status0 keepAlive env).err = none →
      (provisionAndDial id0 status0 keepAlive env).readerStarted = true) := by
  by_cases hid : id0 = 0
  · cases hp : env.provision with
    | error e => simp [provisionAndDial, hid, hp]
    | ok u =>
      cases hd : env.decodeKernel with
      | error e => simp [provisionAndDial, hid, hp, hd]
      | ok kv =>
        cases hdl : env.dial with
        | error e => simp [provisionAndDial, hid, hp, hd, hdl]
        | ok v => simp [provisionAndDial, hid, hp, hd, hdl]
  · cases hdl : env.dial with
    | error e => simp [provisionAndDial, hid, hdl]
    | ok v => simp [provisionAndDial, hid, hdl]

/-- C9: a lifecycle-start call that violates a precondition — empty
kernel name, or, when no control-plane client is supplied, an empty or
unusable endpoint — returns the configuration error, attempts no
network call, and spawns no background task; more generally, every
failing `NewKernel` call leaves both background tasks unspawned. -/
theorem C9_lifecycle_preconditions :
    ∀ (name urlStr : String) (hasClient : Bool) (id0 : Nat) (status0 : String)
      (keepAlive : Nat) (env : NKEnv),
      (name = "" →
        newKernel name hasClient urlStr id0 status0 keepAlive env =
          { err := some "kernel name is required", networkCalls := 0,
            readerStarted := false, keepaliveStarted := false, id := id0,
            Status := status0 }) ∧
      (name ≠ "" → hasClient = false → urlStr = "" →
        newKernel name hasClient urlStr id0 status0 keepAlive env =
          { err := some "kernel gateway url is required", networkCalls := 0,
            readerStarted := false, keepaliveStarted := false, id := id0,
            Status := status0 }) ∧
      (∀ e : String, name ≠ "" → hasClient = false → urlStr ≠ "" →
        env.newClient = .error e →
        newKernel name hasClient urlStr id0 status0 keepAlive env =
          { err := some ("failed to create gateway client: " ++ e), networkCalls := 0,
            readerStarted := false, keepaliveStarted := false, id := id0,
            Status := status0 }) ∧
      ((newKernel name hasClient urlStr id0 status0 keepAlive env).err.isSome →
        (newKernel name hasClient urlStr id0 status0 keepAlive env).readerStarted = false ∧
        (newKernel name hasClient urlStr id0 status0 keepAlive env).keepaliveStarted = false) := by
  intro name urlStr hasClient id0 status0 keepAlive env
  refine ⟨fun hn => ?_, fun hn hcl hu => ?_, fun e hn hcl hu hnc => ?_, fun hsome => ?_⟩
  · simp [newKernel, hn]
  · simp [newKernel, hn, hcl, hu]
  · simp [newKernel, hn, hcl, hu, hnc]
  · by_cases hn : name = ""
    · simp [newKernel, hn]
    · cases hcl : hasClient
      · by_cases hu : urlStr = ""
        · simp [newKernel, hn, hu]
        · cases hnc : env.newClient with
          | error e => simp [newKernel, hn, hu, hnc]
          | ok u =>
            simp only [newKernel, hn, hcl, hu, hnc] at hsome ⊢
            simp at hsome ⊢
            exact (provisionAndDial_err id0 status0 keepAlive env).1 hsome
      · simp only [newKernel, hn, hcl] at hsome ⊢
        simp at hsome ⊢
        exact (provisionAndDial_err id0 status0 keepAlive env).1 hsome

/-- Witness for C9 at concrete violating configurations. -/
theorem C9_witness :
    newKernel "" false "" 0 "" 0 {} =
      { err := some "kernel name is required", networkCalls := 0,
        readerStarted := false, keepaliveStarted := false, id := 0, Status := "" } ∧
    newKernel "python3" false "" 0 "" 0 {} =
      { err := some "kernel gateway url is required", networkCalls := 0,
        readerStarted := false, keepaliveStarted := false, id := 0, Status := "" } :=
  ⟨(C9_lifecycle_preconditions "" "" false 0 "" 0 {}).1 rfl,
   (C9_lifecycle_preconditions "python3" "" false 0 "" 0 {}).2.1 (by decide) rfl rfl⟩

/-- Helper: a freshly generated version-4 uuid is never the nil uuid,
because `NewRandom` forces byte 8 to `(b & 0x3f) | 0x80 ≥ 0x80`. -/
theorem uuidNew_ne_zero (b : Nat → Nat) : uuidNew b ≠ 0 := by
  have h16 : List.range 16 = [0, 1, 2, 3, 4, 5, 6, 7, 8, 9, 10, 11, 12, 13, 14, 15] := rfl
  unfold uuidNew bytesToNat
  rw [h16]
  simp only [List.map_cons, List.map_nil, List.foldl_cons, List.foldl_nil]
  norm_num

/-- C10: submit always assigns the freshly generated, necessarily
non-nil, version-4 correlation id to the envelope it writes; the
Watchdog's synthetic fault record and any record decoded from an
envelope without a parent header carry the nil id; and no record with
the nil id can appear on a per-call channel, whose records all carry the
call's (non-nil) id. -/
theorem C10_nil_id_only_on_listen :
    ∀ (rnd : Nat → Nat) (e : String) (outs : List Content) (status : String)
      (c0 : Content),
      uuidNew rnd ≠ 0 ∧
      (faultContent e).Message = 0 ∧
      readStep status
          (.msg { MsgType := "stream", ParentHeader := none, contentDecode := .ok c0 }) =
        .next status (some { c0 with Message := 0 }) ∧
      (∀ (user session : String) (interrupt : Except String Unit)
          (marshal : Except String (List Nat)) (writeErr : Option String),
        (submit status user session interrupt marshal rnd writeErr).written ≠ none →
        (submit status user session interrupt marshal rnd writeErr).ret.1 = uuidNew rnd) ∧
      (∀ c ∈ (forward (uuidNew rnd) outs).1, c.Message ≠ 0) := by
  intro rnd e outs status c0
  refine ⟨uuidNew_ne_zero rnd, rfl, rfl, fun user session interrupt marshal writeErr hw => ?_,
    fun c hc => ?_⟩
  · by_cases hb : status = "busy"
    · cases interrupt with
      | error ie => simp [submit, hb] at hw
      | ok u =>
        cases marshal with
        | error me => simp [submit, hb] at hw
        | ok mb => simp [submit, hb]
    · cases marshal with
      | error me => simp [submit, hb] at hw
      | ok mb => simp [submit, hb]
  · rw [forward_mem (uuidNew rnd) outs c hc]
    exact uuidNew_ne_zero rnd

/-- Witness for C10 at a concrete random source and stream. -/
theorem C10_witness :
    (submit "idle" "u" "s" (.ok ()) (.ok []) (fun _ => 0) none).ret.1 =
      uuidNew (fun _ => 0) ∧
    ({ Message := uuidNew fun _ => 0, Text := "hi" } : Content).Message ≠ 0 :=
  ⟨(C10_nil_id_only_on_listen (fun _ => 0) "e" [] "idle" {}).2.2.2.1 "u" "s" (.ok ())
      (.ok []) none (by decide),
   (C10_nil_id_only_on_listen (fun _ => 0) "e"
      [{ Message := uuidNew fun _ => 0, Text := "hi" }] "idle" {}).2.2.2.2
      { Message := uuidNew fun _ => 0, Text := "hi" } (by decide)⟩

end Gateway

